import Mathlib

/-!
Verification of the Aqua language runtime (src/runtime/runtime.cpp,
src/runtime/runtime.hpp) against its design specification.

The C++ runtime is shallowly embedded: each class becomes a structure and
each method a Lean function on that structure. Every public method of
`Channel`, `Scheduler` and `GarbageCollector` holds that object's single
mutex for its whole body, so one method call is one atomic step on the
object's state; a condition-variable wait whose predicate is false on entry
cannot complete within the call, and such a blocked call is modelled by the
result `none`. The garbage collector's non-recursive `std::mutex gc_mutex`
is kept explicitly in the state, because `register_object` invokes
`collect()` while already holding it.
-/

namespace Aqua

/-- Embeds `ValueType = std::variant<std::nullptr_t, bool, int64_t, double,
std::string, std::shared_ptr<Channel>>` (runtime.hpp). A
`std::shared_ptr<Channel>` is a reference into a shared heap and is embedded
as a numeric handle. -/
inductive Value where
  | null
  | bool (b : Bool)
  | int (i : Int)
  | float (f : Float)
  | str (s : String)
  | channel (handle : Nat)
deriving Repr

/-- Embeds `class Channel` (runtime.hpp): an ordered buffer of Values
(`std::queue<Value> buffer`, front of the queue at the head of the list), the
construction-time bound `size_t max_size`, and the `bool closed` flag. -/
structure Channel where
  buffer : List Value
  max_size : Nat
  closed : Bool
deriving Repr

/-- Embeds the constructor `Channel::Channel(size_t buffer_size)`
(runtime.cpp lines 39-41): empty buffer, `max_size = buffer_size`, open. -/
def Channel.make_channel (buffer_size : Nat) : Channel :=
  { buffer := [], max_size := buffer_size, closed := false }

/-- Embeds `Channel::send` (runtime.cpp lines 45-61). If the channel is
closed, returns false. If `max_size > 0` and the buffer is full, the C++
caller waits on `not_full`; within a single atomic call that wait cannot
finish, so the call is modelled as `none` (blocked). Otherwise the value is
pushed at the back of the buffer and the call returns true. -/
def Channel.send (c : Channel) (value : Value) : Option (Bool × Channel) :=
  if c.closed then
    some (false, c)
  else if 0 < c.max_size ∧ c.max_size ≤ c.buffer.length then
    none
  else
    some (true, { c with buffer := c.buffer ++ [value] })

/-- Embeds `Channel::receive` (runtime.cpp lines 63-81). The C++ caller
waits on `not_empty` until the buffer is non-empty or the channel is closed;
if that predicate is false on entry the call blocks (`none`). Once past the
wait: empty-and-closed yields `std::nullopt` (end of stream), otherwise the
front value is popped and returned. -/
def Channel.receive (c : Channel) : Option (Option Value × Channel) :=
  match c.buffer with
  | [] => if c.closed then some (none, c) else none
  | v :: rest => some (some v, { c with buffer := rest })

/-- Embeds `Channel::close` (runtime.cpp lines 83-88): sets `closed`; the
`notify_all` calls only wake blocked threads and do not change the state. -/
def Channel.close (c : Channel) : Channel :=
  { c with closed := true }

/-- Embeds `Channel::is_closed` (runtime.cpp lines 90-93). -/
def Channel.is_closed (c : Channel) : Bool := c.closed

/-- Embeds `Channel::is_empty` (runtime.cpp lines 95-98). -/
def Channel.is_empty (c : Channel) : Bool := c.buffer.isEmpty

/-- Embeds `Channel::is_full` (runtime.cpp lines 100-104): returns false
outright when `max_size == 0`, otherwise compares the buffer length with
`max_size`. -/
def Channel.is_full (c : Channel) : Bool :=
  if c.max_size = 0 then false else c.max_size ≤ c.buffer.length

/-- Embeds `Channel::size` (runtime.cpp lines 106-109). -/
def Channel.size (c : Channel) : Nat := c.buffer.length

/-- Embeds `Channel::capacity` (runtime.cpp lines 111-113). -/
def Channel.capacity (c : Channel) : Nat := c.max_size

/-- Iterates `Channel::send` once per value, left to right, requiring every
call to complete immediately with return value `true`; a blocked send or a
send that returns false aborts the whole sequence. -/
def sendList (c : Channel) (vs : List Value) : Option Channel :=
  match vs with
  | [] => some c
  | v :: rest =>
    match c.send v with
    | some (true, c1) => sendList c1 rest
    | _ => none

/-- Iterates `Channel::receive` `n` times, requiring each call to complete
immediately with a value; a blocked receive or an end-of-stream result
aborts the whole sequence. -/
def receiveN (c : Channel) (n : Nat) : Option (List Value × Channel) :=
  match n with
  | 0 => some ([], c)
  | n + 1 =>
    match c.receive with
    | some (some v, c1) =>
      match receiveN c1 n with
      | some (vs, c2) => some (v :: vs, c2)
      | none => none
    | _ => none

/-- Embeds `enum class Fiber::State` (runtime.hpp). -/
inductive FiberState where
  | READY
  | RUNNING
  | WAITING
  | FINISHED
  | ERROR
deriving Repr, DecidableEq

/-- Embeds the effect of `Fiber::start` (runtime.cpp lines 159-166) on the
fiber's state: a READY fiber is set RUNNING, its function is executed to
completion on the calling worker thread (no real context switch exists in
the implementation), and the state is set FINISHED. Any other state is left
unchanged. -/
def fiberStart (s : FiberState) : FiberState :=
  if s = FiberState.READY then FiberState.FINISHED else s

/-- Embeds `class Scheduler` (runtime.hpp). Fibers are held through
`std::shared_ptr`, so the same fiber object can be aliased by several
containers; the embedding therefore keys the containers by fiber id and
keeps each fiber's mutable state once, in the `fibers` association list.
`workers` holds the ids of the pool's `std::thread`s (all joinable). -/
structure Scheduler where
  workers : List Nat
  ready_queue : List Nat
  running_fibers : List Nat
  waiting_fibers : List Nat
  running : Bool
  fibers : List (Nat × FiberState)
deriving Repr, DecidableEq

/-- Looks up the shared state of the fiber with the given id. -/
def Scheduler.stateOf (s : Scheduler) (id : Nat) : Option FiberState :=
  s.fibers.lookup id

/-- Writes the shared state of the fiber with the given id (the effect a
state change through one `shared_ptr` has on every container aliasing it). -/
def setFiberState (fibers : List (Nat × FiberState)) (id : Nat)
    (st : FiberState) : List (Nat × FiberState) :=
  fibers.map (fun p => if p.1 = id then (id, st) else p)

/-- Embeds `Scheduler::spawn` (runtime.cpp lines 250-256): a new fiber is
constructed in state READY and pushed at the back of the ready queue; the
`notify_one` only wakes an idle worker. -/
def Scheduler.spawn (s : Scheduler) (newId : Nat) : Scheduler :=
  { s with ready_queue := s.ready_queue ++ [newId],
           fibers := s.fibers ++ [(newId, FiberState.READY)] }

/-- Embeds `Scheduler::get_next_fiber` (runtime.cpp lines 306-320): pops the
front of the ready queue (if any); when the popped fiber is READY it is also
appended to `running_fibers`; the popped fiber is returned either way. -/
def Scheduler.get_next_fiber (s : Scheduler) : Option Nat × Scheduler :=
  match s.ready_queue with
  | [] => (none, s)
  | fid :: rest =>
    let s1 := { s with ready_queue := rest }
    if s1.stateOf fid = some FiberState.READY then
      (some fid, { s1 with running_fibers := s1.running_fibers ++ [fid] })
    else
      (some fid, s1)

/-- Embeds one iteration of the body of `Scheduler::worker_loop`
(runtime.cpp lines 287-299): call `get_next_fiber`; when it yields a fiber
whose state is READY, call `Fiber::start` on it, which runs it to completion
and leaves the shared fiber object FINISHED. Nothing removes the fiber from
`running_fibers`. When no fiber is available the worker merely waits on the
condition variable, leaving the state unchanged. -/
def Scheduler.worker_step (s : Scheduler) : Scheduler :=
  match s.get_next_fiber with
  | (some fid, s1) =>
    match s1.stateOf fid with
    | some st =>
      if st = FiberState.READY then
        { s1 with fibers := setFiberState s1.fibers fid (fiberStart st) }
      else s1
    | none => s1
  | (none, s1) => s1

/-- Embeds `Scheduler::stop` (runtime.cpp lines 236-248). The returned list
is the workers joined by the call, in order. A call on a scheduler that is
not running returns at once, joining nothing and changing nothing; otherwise
`running` is cleared, every worker thread (all are joinable) is joined, and
the worker vector is cleared. -/
def Scheduler.stop (s : Scheduler) : Scheduler × List Nat :=
  if s.running = false then (s, [])
  else ({ s with running := false, workers := [] }, s.workers)

/-- Embeds the quiescence condition polled by `Scheduler::wait_all`
(runtime.cpp lines 263-271): the loop exits exactly when the ready queue,
the running set and the waiting set are simultaneously empty. -/
def Scheduler.wait_all_done (s : Scheduler) : Bool :=
  s.ready_queue.isEmpty && s.running_fibers.isEmpty && s.waiting_fibers.isEmpty

/-- Embeds `struct GarbageCollector::ObjectInfo` (runtime.hpp): the
allocation identity (`void* ptr`, embedded as a number), its size in bytes,
and the mark bit. -/
structure ObjectInfo where
  ptr : Nat
  size : Nat
  marked : Bool
deriving Repr, DecidableEq

/-- Sum of the sizes of a list of tracked objects. -/
def sumSizes (objects : List ObjectInfo) : Nat :=
  (objects.map (fun o => o.size)).sum

/-- Embeds `class GarbageCollector` (runtime.hpp): the registry
`std::unordered_map<void*, ObjectInfo> objects` is an association list with
at most one entry per `ptr`; `memory_threshold` and `total_allocated` are
the two counters; `gc_mutex` is the object's non-recursive `std::mutex`,
true while held. `total_allocated` is a `size_t`; it is embedded as `Nat`
with truncating subtraction, which agrees with the machine value whenever no
subtraction underflows. -/
structure GarbageCollector where
  objects : List ObjectInfo
  memory_threshold : Nat
  total_allocated : Nat
  gc_mutex : Bool
deriving Repr, DecidableEq

/-- Embeds the constructor `GarbageCollector::GarbageCollector`
(runtime.cpp lines 323-325): empty registry, threshold 1 MiB, zero bytes
tracked, mutex free. -/
def GarbageCollector.makeGC : GarbageCollector :=
  { objects := [], memory_threshold := 1024 * 1024,
    total_allocated := 0, gc_mutex := false }

/-- Acquires the collector's non-recursive `gc_mutex`
(`std::lock_guard<std::mutex>`). Locking a `std::mutex` the caller already
holds never succeeds (undefined behaviour, in practice a self-deadlock), so
the result is `none` when the mutex is already held. -/
def lockGc (g : GarbageCollector) : Option GarbageCollector :=
  if g.gc_mutex then none else some { g with gc_mutex := true }

/-- Releases the collector's `gc_mutex` (the `lock_guard` leaving scope). -/
def unlockGc (g : GarbageCollector) : GarbageCollector :=
  { g with gc_mutex := false }

/-- Embeds the mark-reset loop of `GarbageCollector::mark_and_sweep`
(runtime.cpp lines 372-375): every mark bit is cleared. -/
def GarbageCollector.clear_marks (g : GarbageCollector) : GarbageCollector :=
  { g with objects := g.objects.map (fun o => { o with marked := false }) }

/-- Embeds `GarbageCollector::mark_reachable_objects` (runtime.cpp lines
384-392): the loop sets the mark bit of every registered object
unconditionally; no root is consulted and no reference graph is traversed. -/
def GarbageCollector.mark_reachable_objects (g : GarbageCollector) :
    GarbageCollector :=
  { g with objects := g.objects.map (fun o => { o with marked := true }) }

/-- Embeds `GarbageCollector::sweep_unreachable_objects` (runtime.cpp lines
394-404): every unmarked entry is erased and its size subtracted from
`total_allocated`; marked entries are kept. -/
def GarbageCollector.sweep_unreachable_objects (g : GarbageCollector) :
    GarbageCollector :=
  { g with
    objects := g.objects.filter (fun o => o.marked),
    total_allocated :=
      g.total_allocated - sumSizes (g.objects.filter (fun o => !o.marked)) }

/-- Embeds `GarbageCollector::mark_and_sweep` (runtime.cpp lines 371-382):
reset all marks, mark, sweep. Private helper, called with the mutex held. -/
def GarbageCollector.mark_and_sweep (g : GarbageCollector) :
    GarbageCollector :=
  (g.clear_marks.mark_reachable_objects).sweep_unreachable_objects

/-- Embeds `GarbageCollector::collect` (runtime.cpp lines 348-351): acquire
`gc_mutex`, run `mark_and_sweep`, release. Blocks forever (`none`) if the
caller already holds the mutex. -/
def GarbageCollector.collect (g : GarbageCollector) :
    Option GarbageCollector :=
  match lockGc g with
  | none => none
  | some g1 => some (unlockGc g1.mark_and_sweep)

/-- Embeds `objects[ptr] = ObjectInfo{ptr, size, false}` on the
`unordered_map`: insert, or overwrite the existing entry for that key. -/
def insertObject (objects : List ObjectInfo) (p sz : Nat) :
    List ObjectInfo :=
  if objects.any (fun o => o.ptr = p) then
    objects.map (fun o =>
      if o.ptr = p then { ptr := p, size := sz, marked := false } else o)
  else
    objects ++ [{ ptr := p, size := sz, marked := false }]

/-- Embeds `GarbageCollector::register_object` (runtime.cpp lines 329-337):
acquire `gc_mutex`, store the entry, add the size to `total_allocated`, and
when the new total strictly exceeds `memory_threshold` call `collect()` —
which tries to re-acquire the still-held `gc_mutex` and therefore never
completes (`none`). -/
def GarbageCollector.register_object (g : GarbageCollector) (p sz : Nat) :
    Option GarbageCollector :=
  match lockGc g with
  | none => none
  | some g1 =>
    let g2 : GarbageCollector :=
      { g1 with objects := insertObject g1.objects p sz,
                total_allocated := g1.total_allocated + sz }
    if g2.memory_threshold < g2.total_allocated then
      match g2.collect with
      | none => none
      | some g3 => some (unlockGc g3)
    else
      some (unlockGc g2)

/-- Embeds `GarbageCollector::unregister_object` (runtime.cpp lines
339-346): acquire `gc_mutex`; when the identity is registered, subtract its
size and erase the entry; when it is not, do nothing and return normally. -/
def GarbageCollector.unregister_object (g : GarbageCollector) (p : Nat) :
    Option GarbageCollector :=
  match lockGc g with
  | none => none
  | some g1 =>
    match g1.objects.find? (fun o => o.ptr = p) with
    | some o =>
      some (unlockGc
        { g1 with
          total_allocated := g1.total_allocated - o.size,
          objects := g1.objects.filter (fun x => x.ptr != p) })
    | none => some (unlockGc g1)

/-- Embeds `GarbageCollector::set_threshold` (runtime.cpp lines 353-355),
which takes no lock. -/
def GarbageCollector.set_threshold (g : GarbageCollector) (t : Nat) :
    GarbageCollector :=
  { g with memory_threshold := t }

/-- Embeds `GarbageCollector::get_threshold` (runtime.cpp lines 357-359). -/
def GarbageCollector.get_threshold (g : GarbageCollector) : Nat :=
  g.memory_threshold

/-- Embeds `GarbageCollector::allocated_objects` (runtime.cpp 361-364). -/
def GarbageCollector.allocated_objects (g : GarbageCollector) : Nat :=
  g.objects.length

/-- Embeds `GarbageCollector::total_memory` (runtime.cpp lines 366-369). -/
def GarbageCollector.total_memory (g : GarbageCollector) : Nat :=
  g.total_allocated

/-- Follows the specification's notion of reachability from the root set
(globals, live fiber locals, live channel buffers). A registered
`ObjectInfo` records no outgoing references, so an object is reachable
exactly when its identity is itself in the root set. -/
def reachableFromRoots (roots : List Nat) (p : Nat) : Prop :=
  p ∈ roots

/-- States the registry invariant of the specification: the running total of
tracked bytes equals the sum of the sizes of the currently registered
objects. -/
def gcInvariant (g : GarbageCollector) : Prop :=
  g.total_allocated = sumSizes g.objects

/-- Sends that fit below the bound all complete immediately, each returning
true, and append the values in order at the back of the buffer. -/
theorem sendList_ok : ∀ (vs : List Value) (c : Channel), c.closed = false →
    c.buffer.length + vs.length ≤ c.max_size →
    sendList c vs = some { c with buffer := c.buffer ++ vs } := by
  intro vs
  induction vs with
  | nil =>
    intro c _ _
    simp [sendList]
  | cons v rest ih =>
    intro c hc hlen
    have hnb : ¬ (0 < c.max_size ∧ c.max_size ≤ c.buffer.length) := by
      intro hcontra
      simp [List.length_cons] at hlen
      omega
    have hsend : c.send v = some (true, { c with buffer := c.buffer ++ [v] }) := by
      simp [Channel.send, hc, hnb]
    have hlen2 :
        ({ c with buffer := c.buffer ++ [v] } : Channel).buffer.length +
          rest.length ≤ ({ c with buffer := c.buffer ++ [v] } : Channel).max_size := by
      simp only [List.length_append, List.length_cons] at hlen ⊢
      simp
      omega
    have hrec := ih { c with buffer := c.buffer ++ [v] } hc hlen2
    calc sendList c (v :: rest)
        = sendList { c with buffer := c.buffer ++ [v] } rest := by
          simp [sendList, hsend]
      _ = some { c with buffer := c.buffer ++ (v :: rest) } := by
          rw [hrec]
          simp

/-- Receiving exactly as many values as the buffer holds drains the buffer
front-first, returning its contents in order. -/
theorem receiveN_all : ∀ (vs : List Value) (c : Channel), c.buffer = vs →
    receiveN c vs.length = some (vs, { c with buffer := [] }) := by
  intro vs
  induction vs with
  | nil =>
    intro c hb
    cases c
    simp_all [receiveN]
  | cons v rest ih =>
    intro c hb
    have hrcv : c.receive = some (some v, { c with buffer := rest }) := by
      simp [Channel.receive, hb]
    have hrec := ih { c with buffer := rest } rfl
    simp [receiveN, hrcv, hrec]

/-- C1 (amended): a channel with capacity 0 is not a rendezvous channel but an
unbounded buffered one: a send on an open capacity-0 channel never waits for a
receiver — it enqueues its Value at the back of the buffer immediately and
returns true — while a receive on an empty open capacity-0 channel blocks until
some send has buffered a value or the channel is closed. -/
theorem c1_capacity_zero_is_unbounded (c : Channel) (v : Value)
    (hcap : c.max_size = 0) :
    (c.closed = false →
      c.send v = some (true, { c with buffer := c.buffer ++ [v] })) ∧
    (c.buffer = [] → c.closed = false → c.receive = none) := by
  constructor
  · intro hopen
    simp [Channel.send, hopen, hcap]
  · intro hb hopen
    simp [Channel.receive, hb, hopen]

/-- C1 witness: concrete capacity-0 channel evaluations. -/
theorem c1_capacity_zero_is_unbounded_witness :
    Channel.send (Channel.make_channel 0) (Value.int 5) =
      some (true, { Channel.make_channel 0 with buffer := [Value.int 5] }) ∧
    Channel.receive (Channel.make_channel 0) = none := by
  have h := c1_capacity_zero_is_unbounded (Channel.make_channel 0) (Value.int 5) rfl
  exact ⟨h.1 rfl, h.2 rfl rfl⟩

/-- C1 counterexample: on a fresh capacity-0 channel, with no receiver present,
send(42) completes at once with return value true and the Value 42 is stored in
the channel's buffer — refuting both the rendezvous requirement and the claim
that no Value is ever buffered at capacity 0. -/
theorem c1_counterexample :
    Channel.send (Channel.make_channel 0) (Value.int 42) =
      some (true, { buffer := [Value.int 42], max_size := 0, closed := false }) ∧
    ({ buffer := [Value.int 42], max_size := 0, closed := false } : Channel).buffer ≠ [] := by
  exact ⟨rfl, by simp⟩

/-- C2: on a channel with capacity at least n that starts with an empty buffer
and is open, n sends of v1..vn all succeed (each returning true), and the next
n receives return exactly v1..vn in that order, leaving the buffer empty. -/
theorem c2_fifo_order (c : Channel) (vs : List Value)
    (hopen : c.closed = false) (hempty : c.buffer = [])
    (hcap : vs.length ≤ c.max_size) :
    sendList c vs = some { c with buffer := vs } ∧
    receiveN { c with buffer := vs } vs.length =
      some (vs, { c with buffer := [] }) := by
  constructor
  · have h := sendList_ok vs c hopen (by rw [hempty]; simpa using hcap)
    rw [hempty] at h
    simpa using h
  · exact receiveN_all vs { c with buffer := vs } rfl

/-- C2 witness: two sends then two receives on a fresh capacity-2 channel. -/
theorem c2_fifo_order_witness :
    sendList (Channel.make_channel 2) [Value.int 1, Value.int 2] =
      some { Channel.make_channel 2 with buffer := [Value.int 1, Value.int 2] } ∧
    receiveN { Channel.make_channel 2 with buffer := [Value.int 1, Value.int 2] } 2 =
      some ([Value.int 1, Value.int 2], { Channel.make_channel 2 with buffer := [] }) :=
  c2_fifo_order (Channel.make_channel 2) [Value.int 1, Value.int 2] rfl rfl
    (by decide)

/-- C3: after close, a send returns false and leaves the channel unchanged (no
Value is enqueued); a receive on an empty closed channel returns no value (end
of stream) without blocking; and a receive on a non-empty closed channel
dequeues and returns the oldest buffered Value. -/
theorem c3_closed_channel_semantics (c : Channel) (v : Value)
    (hclosed : c.closed = true) :
    c.send v = some (false, c) ∧
    (c.buffer = [] → c.receive = some (none, c)) ∧
    (∀ (w : Value) (rest : List Value), c.buffer = w :: rest →
      c.receive = some (some w, { c with buffer := rest })) := by
  refine ⟨?_, ?_, ?_⟩
  · simp [Channel.send, hclosed]
  · intro hb
    simp [Channel.receive, hb, hclosed]
  · intro w rest hb
    simp [Channel.receive, hb]

/-- C3 witness: concrete closed-channel evaluations, on an empty and on a
non-empty buffer. -/
theorem c3_closed_channel_semantics_witness :
    Channel.send (Channel.close (Channel.make_channel 1)) (Value.int 3) =
      some (false, Channel.close (Channel.make_channel 1)) ∧
    Channel.receive (Channel.close (Channel.make_channel 1)) =
      some (none, Channel.close (Channel.make_channel 1)) ∧
    Channel.receive { buffer := [Value.int 7], max_size := 2, closed := true } =
      some (some (Value.int 7),
        { buffer := [], max_size := 2, closed := true }) := by
  have h1 := c3_closed_channel_semantics (Channel.close (Channel.make_channel 1))
    (Value.int 3) rfl
  have h2 := c3_closed_channel_semantics
    { buffer := [Value.int 7], max_size := 2, closed := true } (Value.int 0) rfl
  exact ⟨h1.1, h1.2.1 rfl, h2.2.2 (Value.int 7) [] rfl⟩

/-- C10: is_full always returns false on a channel of capacity 0, whatever its
buffer and closed flag, and a channel can only report full when its capacity is
positive. -/
theorem c10_is_full_capacity_zero (c : Channel) :
    (c.max_size = 0 → c.is_full = false) ∧
    (c.is_full = true → 0 < c.max_size) := by
  constructor
  · intro h
    simp [Channel.is_full, h]
  · intro h
    by_contra hzero
    have h0 : c.max_size = 0 := by omega
    simp [Channel.is_full, h0] at h

/-- C10 witness: a capacity-0 channel with a non-empty buffer still reports not
full. -/
theorem c10_is_full_capacity_zero_witness :
    Channel.is_full { buffer := [Value.int 1], max_size := 0, closed := false } =
      false :=
  (c10_is_full_capacity_zero
    { buffer := [Value.int 1], max_size := 0, closed := false }).1 rfl

/-- Clearing all marks and then marking every object is the same as marking
every object. -/
theorem markAll_after_clear (l : List ObjectInfo) :
    (l.map (fun o => { o with marked := false })).map
        (fun o => { o with marked := true }) =
      l.map (fun o => { o with marked := true }) := by
  induction l with
  | nil => rfl
  | cons a t ih => simp [ih]

/-- Every object is kept by the sweep once every object is marked. -/
theorem filter_marked_markAll (l : List ObjectInfo) :
    (l.map (fun o => { o with marked := true })).filter (fun o => o.marked) =
      l.map (fun o => { o with marked := true }) := by
  induction l with
  | nil => rfl
  | cons a t ih => simp [List.filter, ih]

/-- No object is unmarked once every object is marked. -/
theorem filter_unmarked_markAll (l : List ObjectInfo) :
    (l.map (fun o => { o with marked := true })).filter (fun o => !o.marked) =
      [] := by
  induction l with
  | nil => rfl
  | cons a t ih => simp [List.filter, ih]

/-- The whole mark-and-sweep pass of the implementation reduces to setting
every mark bit: nothing is ever swept and no byte count changes. -/
theorem mark_and_sweep_eq (g : GarbageCollector) :
    g.mark_and_sweep =
      { g with objects := g.objects.map (fun o => { o with marked := true }) } := by
  cases g with
  | mk objs thr tot mx =>
    simp only [GarbageCollector.mark_and_sweep, GarbageCollector.clear_marks,
      GarbageCollector.mark_reachable_objects,
      GarbageCollector.sweep_unreachable_objects]
    rw [markAll_after_clear, filter_marked_markAll, filter_unmarked_markAll]
    simp [sumSizes]

/-- Evaluation of collect when the caller does not hold the mutex. -/
theorem collect_eq (g : GarbageCollector) (hfree : g.gc_mutex = false) :
    g.collect =
      some { g with objects := g.objects.map (fun o => { o with marked := true }) } := by
  cases g with
  | mk objs thr tot mx =>
    simp at hfree
    subst hfree
    simp [GarbageCollector.collect, lockGc, unlockGc, mark_and_sweep_eq]

/-- C4 (amended): collect() removes no object at all. The mark phase marks
every registered object unconditionally without consulting any root, so
objects reachable from the root set are indeed never removed — but objects
unreachable from the roots are never removed either, and total_memory() and
allocated_objects() are unchanged by collect(). -/
theorem c4_collect_sweeps_nothing (g : GarbageCollector)
    (hfree : g.gc_mutex = false) :
    ∃ g1, g.collect = some g1 ∧
      g1.objects.map (fun o => (o.ptr, o.size)) =
        g.objects.map (fun o => (o.ptr, o.size)) ∧
      g1.total_memory = g.total_memory ∧
      g1.allocated_objects = g.allocated_objects := by
  refine ⟨_, collect_eq g hfree, ?_, ?_, ?_⟩
  · simp [List.map_map]
  · simp [GarbageCollector.total_memory]
  · simp [GarbageCollector.allocated_objects]

/-- C4 witness: collect on a one-object registry with the mutex free. -/
theorem c4_collect_sweeps_nothing_witness :
    ∃ g1, GarbageCollector.collect ⟨[⟨1, 8, false⟩], 1024, 8, false⟩ = some g1 ∧
      g1.objects.map (fun o => (o.ptr, o.size)) =
        ([⟨1, 8, false⟩] : List ObjectInfo).map (fun o => (o.ptr, o.size)) ∧
      g1.total_memory = GarbageCollector.total_memory ⟨[⟨1, 8, false⟩], 1024, 8, false⟩ ∧
      g1.allocated_objects =
        GarbageCollector.allocated_objects ⟨[⟨1, 8, false⟩], 1024, 8, false⟩ :=
  c4_collect_sweeps_nothing ⟨[⟨1, 8, false⟩], 1024, 8, false⟩ rfl

/-- C4 counterexample: identity 1 (size 8) is registered and unreachable from
the (empty) root set, yet collect() keeps it registered and total_memory()
stays 8 instead of decreasing by the unreachable object's size. -/
theorem c4_counterexample :
    ¬ reachableFromRoots [] 1 ∧
    GarbageCollector.collect ⟨[⟨1, 8, false⟩], 1024, 8, false⟩ =
      some ⟨[⟨1, 8, true⟩], 1024, 8, false⟩ ∧
    GarbageCollector.total_memory ⟨[⟨1, 8, true⟩], 1024, 8, false⟩ = 8 := by
  refine ⟨?_, rfl, rfl⟩
  simp [reachableFromRoots]

/-- C5: evaluation at the failing input. With the threshold set to 10, a
16-byte registration makes the new total (16) exceed the threshold, so
register_object invokes collect() while still holding the non-recursive
gc_mutex; that second acquisition can never succeed, so no collection pass
runs and register_object never returns (result none). A registration that
stays at or below the threshold completes normally. -/
theorem c5_register_trigger_self_deadlocks :
    GarbageCollector.register_object
      (GarbageCollector.set_threshold GarbageCollector.makeGC 10) 1 16 = none ∧
    GarbageCollector.register_object
      (GarbageCollector.set_threshold GarbageCollector.makeGC 10) 1 8 =
      some ⟨[⟨1, 8, false⟩], 10, 8, false⟩ :=
  ⟨rfl, rfl⟩

/-- C6 (amended): unregister_object on an identity that is not currently
registered is silently ignored: the call completes normally, reports nothing
to the caller, and leaves the registry and the total tracked bytes exactly as
they were. -/
theorem c6_unregister_missing_is_silent (g : GarbageCollector) (p : Nat)
    (hfree : g.gc_mutex = false)
    (habsent : g.objects.find? (fun o => o.ptr = p) = none) :
    g.unregister_object p = some g := by
  cases g with
  | mk objs thr tot mx =>
    simp at hfree
    subst hfree
    simp [GarbageCollector.unregister_object, lockGc, unlockGc, habsent]

/-- C6 witness: unregistering an absent identity from a one-object registry. -/
theorem c6_unregister_missing_is_silent_witness :
    GarbageCollector.unregister_object ⟨[⟨7, 4, false⟩], 1024, 4, false⟩ 42 =
      some ⟨[⟨7, 4, false⟩], 1024, 4, false⟩ :=
  c6_unregister_missing_is_silent ⟨[⟨7, 4, false⟩], 1024, 4, false⟩ 42 rfl rfl

/-- C6 counterexample: a double-unregister (identity 42 was never registered)
is not reported as an error — the call succeeds and returns the collector
unchanged. -/
theorem c6_counterexample :
    GarbageCollector.unregister_object GarbageCollector.makeGC 42 =
      some GarbageCollector.makeGC :=
  rfl

/-- Sum of sizes of a cons cell. -/
theorem sumSizes_cons (a : ObjectInfo) (t : List ObjectInfo) :
    sumSizes (a :: t) = a.size + sumSizes t := by
  simp [sumSizes]

/-- Sum of sizes distributes over append. -/
theorem sumSizes_append (l1 l2 : List ObjectInfo) :
    sumSizes (l1 ++ l2) = sumSizes l1 + sumSizes l2 := by
  simp [sumSizes]

/-- Splitting a registry into its marked and unmarked parts splits the byte
total. -/
theorem sumSizes_split (l : List ObjectInfo) :
    sumSizes (l.filter (fun o => o.marked)) +
      sumSizes (l.filter (fun o => !o.marked)) = sumSizes l := by
  induction l with
  | nil => rfl
  | cons a t ih =>
    by_cases h : a.marked = true
    · simp [List.filter_cons, h, sumSizes_cons]
      omega
    · simp at h
      simp [List.filter_cons, h, sumSizes_cons]
      omega

/-- Filtering out a key that does not occur leaves the registry unchanged. -/
theorem filter_ne_of_not_mem (t : List ObjectInfo) (p : Nat)
    (h : p ∉ t.map (fun o => o.ptr)) :
    t.filter (fun x => x.ptr != p) = t := by
  induction t with
  | nil => rfl
  | cons a s ih =>
    simp only [List.map_cons, List.mem_cons, not_or] at h
    have hne : (a.ptr != p) = true := by
      simp only [bne_iff_ne, ne_eq]
      intro hap
      exact h.1 hap.symm
    simp [List.filter_cons, hne, ih h.2]

/-- Erasing the entry an unordered-map lookup found subtracts exactly that
entry's size, provided the keys are distinct (which the map guarantees). -/
theorem sumSizes_filter_of_find (l : List ObjectInfo) (p : Nat)
    (o : ObjectInfo) (hnd : (l.map (fun x => x.ptr)).Nodup)
    (hf : l.find? (fun x => x.ptr = p) = some o) :
    sumSizes (l.filter (fun x => x.ptr != p)) + o.size = sumSizes l := by
  induction l with
  | nil => simp [List.find?] at hf
  | cons a t ih =>
    simp only [List.map_cons, List.nodup_cons] at hnd
    by_cases hap : a.ptr = p
    · have hoa : a = o := by
        simp [List.find?, hap] at hf
        exact hf
      subst hoa
      have hkeep : (a.ptr != p) = false := by
        simp [bne, hap]
      have htail : t.filter (fun x => x.ptr != p) = t := by
        apply filter_ne_of_not_mem
        rw [← hap]
        exact hnd.1
      simp [List.filter_cons, hkeep, htail, sumSizes_cons]
      omega
    · have hne : (a.ptr != p) = true := by
        simp only [bne_iff_ne, ne_eq]
        exact hap
      have hf2 : t.find? (fun x => x.ptr = p) = some o := by
        simp [List.find?, hap] at hf
        exact hf
      have := ih hnd.2 hf2
      simp [List.filter_cons, hne, sumSizes_cons]
      omega

/-- C8 (amended): the running total equals the sum of the registered sizes,
and this equality is preserved by register_object when the identity is not
already registered (and the new total stays within the threshold, so that the
call returns), by unregister_object, and by the sweep phase, which subtracts
exactly the sizes of the objects it removes. Registering an identity that is
already registered breaks the equality: the map entry is overwritten but the
old size is not subtracted. -/
theorem c8_total_equals_sum_of_sizes (g : GarbageCollector) (p sz : Nat)
    (hinv : gcInvariant g) :
    (g.gc_mutex = false → (g.objects.any (fun o => o.ptr = p)) = false →
      g.total_allocated + sz ≤ g.memory_threshold →
      ∃ g1, g.register_object p sz = some g1 ∧ gcInvariant g1) ∧
    (g.gc_mutex = false → (g.objects.map (fun o => o.ptr)).Nodup →
      ∃ g1, g.unregister_object p = some g1 ∧ gcInvariant g1) ∧
    (gcInvariant g.sweep_unreachable_objects ∧
      g.sweep_unreachable_objects.total_allocated =
        g.total_allocated -
          sumSizes (g.objects.filter (fun o => !o.marked))) := by
  obtain ⟨objs, thr, tot, mx⟩ := g
  have hinv2 : tot = sumSizes objs := hinv
  refine ⟨?_, ?_, ?_, ?_⟩
  · intro hfree hfresh hthresh
    have hfree2 : mx = false := hfree
    subst hfree2
    have hfresh2 : objs.any (fun o => decide (o.ptr = p)) = false := hfresh
    have hthresh2 : tot + sz ≤ thr := hthresh
    have hcond : ¬ (thr < tot + sz) := by omega
    have hins : insertObject objs p sz = objs ++ [⟨p, sz, false⟩] := by
      simp only [insertObject]
      rw [if_neg]
      intro hcontra
      rw [hfresh2] at hcontra
      exact Bool.false_ne_true hcontra
    refine ⟨⟨objs ++ [⟨p, sz, false⟩], thr, tot + sz, false⟩, ?_, ?_⟩
    · simp [GarbageCollector.register_object, lockGc, unlockGc, hins, hcond]
    · show tot + sz = sumSizes (objs ++ [⟨p, sz, false⟩])
      have hsingle : sumSizes [(⟨p, sz, false⟩ : ObjectInfo)] = sz := by
        simp [sumSizes]
      rw [sumSizes_append, hsingle]
      omega
  · intro hfree hnd
    have hfree2 : mx = false := hfree
    subst hfree2
    have hnd2 : (objs.map (fun x => x.ptr)).Nodup := hnd
    cases hfo : objs.find? (fun x => x.ptr = p) with
    | none =>
      refine ⟨⟨objs, thr, tot, false⟩, ?_, ?_⟩
      · simp [GarbageCollector.unregister_object, lockGc, unlockGc, hfo]
      · exact hinv2
    | some o =>
      refine ⟨⟨objs.filter (fun x => x.ptr != p), thr, tot - o.size, false⟩,
        ?_, ?_⟩
      · simp [GarbageCollector.unregister_object, lockGc, unlockGc, hfo]
      · have hsum := sumSizes_filter_of_find objs p o hnd2 hfo
        show tot - o.size = sumSizes (objs.filter (fun x => x.ptr != p))
        omega
  · show tot - sumSizes (objs.filter (fun o => !o.marked)) =
      sumSizes (objs.filter (fun o => o.marked))
    have hsplit := sumSizes_split objs
    omega
  · rfl

/-- C8 witness: the invariant survives a fresh registration and an
unregistration on the freshly constructed collector. -/
theorem c8_total_equals_sum_of_sizes_witness :
    (∃ g1, GarbageCollector.register_object GarbageCollector.makeGC 1 4 =
        some g1 ∧ gcInvariant g1) ∧
    (∃ g1, GarbageCollector.unregister_object GarbageCollector.makeGC 1 =
        some g1 ∧ gcInvariant g1) := by
  have h := c8_total_equals_sum_of_sizes GarbageCollector.makeGC 1 4 rfl
  exact ⟨h.1 rfl rfl (by decide), h.2.1 rfl (by decide)⟩

/-- C8 counterexample: registering identity 1 twice (size 4 each time)
overwrites the single map entry yet adds the size twice, leaving
total_allocated at 8 while the registered sizes sum to 4 — the equality the
claim asserts fails. -/
theorem c8_counterexample :
    (GarbageCollector.register_object GarbageCollector.makeGC 1 4).bind
        (fun g => g.register_object 1 4) =
      some ⟨[⟨1, 4, false⟩], 1024 * 1024, 8, false⟩ ∧
    sumSizes [⟨1, 4, false⟩] = 4 ∧ (8 : Nat) ≠ 4 := by
  refine ⟨rfl, rfl, by decide⟩

/-- C7: evaluation of the scheduler at the failing scenario. Spawn fiber 7 on
an otherwise idle one-worker scheduler and let one worker iteration run it:
get_next_fiber moves the fiber from the ready queue into running_fibers, the
fiber runs to completion and becomes FINISHED, but no code ever removes it
from running_fibers — the FINISHED fiber stays in the running set, and the
quiescence condition polled by wait_all can never become true again. -/
theorem c7_finished_fiber_stays_in_running_set :
    Scheduler.worker_step
        (Scheduler.spawn
          { workers := [0], ready_queue := [], running_fibers := [],
            waiting_fibers := [], running := true, fibers := [] } 7) =
      { workers := [0], ready_queue := [], running_fibers := [7],
        waiting_fibers := [], running := true,
        fibers := [(7, FiberState.FINISHED)] } ∧
    Scheduler.wait_all_done
        { workers := [0], ready_queue := [], running_fibers := [7],
          waiting_fibers := [], running := true,
          fibers := [(7, FiberState.FINISHED)] } = false :=
  ⟨rfl, rfl⟩

/-- C9: stop() on a scheduler that is not running returns immediately, joins
nothing and changes nothing, so any number of repeated calls is safe; a call
on a running scheduler clears the running flag, joins every worker thread of
the pool, and leaves the worker list empty, after which a further stop() is a
no-op. -/
theorem c9_stop_idempotent_joins_all (s : Scheduler) :
    (s.running = false → s.stop = (s, [])) ∧
    (s.running = true →
      (s.stop).1.workers = [] ∧ (s.stop).2 = s.workers ∧
      (s.stop).1.running = false ∧
      ((s.stop).1).stop = ((s.stop).1, [])) := by
  constructor
  · intro h
    simp [Scheduler.stop, h]
  · intro h
    simp [Scheduler.stop, h]

/-- C9 witness: a running scheduler with two workers. -/
theorem c9_stop_idempotent_joins_all_witness :
    (Scheduler.stop
        { workers := [1, 2], ready_queue := [], running_fibers := [],
          waiting_fibers := [], running := true, fibers := [] }).1.workers = [] ∧
    (Scheduler.stop
        { workers := [1, 2], ready_queue := [], running_fibers := [],
          waiting_fibers := [], running := true, fibers := [] }).2 = [1, 2] ∧
    Scheduler.stop
        (Scheduler.stop
          { workers := [1, 2], ready_queue := [], running_fibers := [],
            waiting_fibers := [], running := true, fibers := [] }).1 =
      ((Scheduler.stop
          { workers := [1, 2], ready_queue := [], running_fibers := [],
            waiting_fibers := [], running := true, fibers := [] }).1, []) := by
  have h := (c9_stop_idempotent_joins_all
    { workers := [1, 2], ready_queue := [], running_fibers := [],
      waiting_fibers := [], running := true, fibers := [] }).2 rfl
  exact ⟨h.1, h.2.1, h.2.2.2⟩

end Aqua
